import Mathlib

/-
Shallow embedding of the AEO audit agent (content analyzer, rule-based query
synthesizer, orchestrator and URL normalizer), translated from the Python
sources src/analyzer.py and src/perplexity_checker.py. Strings are modelled
as Lean `String` (lists of characters); Python string primitives such as
str.split, str.lower, str.strip, substring membership and re word-boundary
search are embedded as executable functions on `List Char`. Python str.lower
is modelled on its ASCII fragment (the only fragment the analyzed code relies
on), and whitespace is `Char.isWhitespace`.
-/

namespace AEO

/- Character-level helpers. -/

/-- Model of Python str.lower on one character (ASCII fragment). -/
def lowerChar (c : Char) : Char :=
  if 65 ≤ c.toNat ∧ c.toNat ≤ 90 then Char.ofNat (c.toNat + 32) else c

/-- Model of Python str.lower (ASCII fragment, applied characterwise). -/
def lowerStr (s : String) : String :=
  String.mk (s.data.map lowerChar)

/-- Word character for the purposes of a regex word boundary. -/
def isWordChar (c : Char) : Bool :=
  c.isAlphanum || c == '_'

/- List-level string primitives. -/

/-- Boolean list-level test that the first list is a leading segment of the second. -/
def isPrefL : List Char → List Char → Bool
  | [], _ => true
  | _ :: _, [] => false
  | p :: ps, c :: cs => p == c && isPrefL ps cs

/-- Model of Python substring membership (pat in s) on character lists. -/
def isSubL (pat : List Char) : List Char → Bool
  | [] => isPrefL pat []
  | c :: cs => isPrefL pat (c :: cs) || isSubL pat cs

/-- Model of Python substring membership on strings. -/
def subS (pat s : String) : Bool := isSubL pat.data s.data

/-- Model of Python str.startswith. -/
def startsWithS (s p : String) : Bool := isPrefL p.data s.data

/-- Model of Python str.strip on character lists. -/
def trimL (l : List Char) : List Char :=
  ((l.dropWhile Char.isWhitespace).reverse.dropWhile Char.isWhitespace).reverse

/-- Model of Python str.strip on strings. -/
def trimS (s : String) : String := String.mk (trimL s.data)

/-- Model of s.strip().endswith("?") from the scorer. -/
def endsWithQmark (s : String) : Bool :=
  match (trimL s.data).reverse with
  | [] => false
  | c :: _ => c == '?'

/-- Accumulator-style model of Python str.split() (split on whitespace runs,
dropping empty tokens); cur holds the current in-progress token reversed. -/
def wordsAux : List Char → List Char → List (List Char)
  | cur, [] => if cur.isEmpty then [] else [cur.reverse]
  | cur, c :: cs =>
    if c.isWhitespace then
      if cur.isEmpty then wordsAux [] cs else cur.reverse :: wordsAux [] cs
    else
      wordsAux (c :: cur) cs

/-- Model of " ".join on a list of tokens. -/
def joinSp : List (List Char) → List Char
  | [] => []
  | [w] => w
  | w :: w2 :: ws => w ++ ' ' :: joinSp (w2 :: ws)

/-- Word-boundary match of pat at the head of text (the character that follows
the match, if any, must not be a word character). -/
def wbAt (pat text : List Char) : Bool :=
  isPrefL pat text &&
    (match text.drop pat.length with
     | [] => true
     | c :: _ => !isWordChar c)

/-- Scan for a word-boundary match of pat; prevIsWord records whether the
character just before the current position is a word character. -/
def wbSearchAux (pat : List Char) (prevIsWord : Bool) : List Char → Bool
  | [] => false
  | c :: cs => (!prevIsWord && wbAt pat (c :: cs)) || wbSearchAux pat (isWordChar c) cs

/-- Model of re.search with the pattern wrapped in word boundaries, for
patterns that start and end with word characters. -/
def wbSearch (pat s : String) : Bool := wbSearchAux pat.data false s.data

/- Metrics calculator, embedded from src/analyzer.py. -/

/-- Embeds count_words: len(text.split()). -/
def count_words (text : String) : Nat :=
  (wordsAux [] text.data).length

/-- Embeds get_first_n_words: " ".join(text.split()[:n]). -/
def get_first_n_words (text : String) (n : Nat) : String :=
  String.mk (joinSp ((wordsAux [] text.data).take n))

/- URL normalizer, embedded from src/perplexity_checker.py. -/

/-- Split a list at the first occurrence of pat, returning the parts before
and after the occurrence. -/
def splitFirst (pat : List Char) : List Char → Option (List Char × List Char)
  | [] => if isPrefL pat [] then some ([], []) else none
  | c :: cs =>
    if isPrefL pat (c :: cs) then some ([], (c :: cs).drop pat.length)
    else
      match splitFirst pat cs with
      | some (a, b) => some (c :: a, b)
      | none => none

/-- Modelled from the Python stdlib urllib.parse.urlparse, restricted to the
fragment normalize_url exercises: for an input containing "://" the netloc is
the segment between the first "://" and the following "/" and the path is the
remainder; a scheme-less input (no "://", no colon) is parsed entirely as the
path with an empty netloc. Query strings, fragments, parameters and userinfo
are not modelled. -/
def parseNetlocPath (s : List Char) : List Char × List Char :=
  match splitFirst (String.data "://") s with
  | some (_, after) =>
    (after.takeWhile (fun c => !(c == '/')), after.dropWhile (fun c => !(c == '/')))
  | none => ([], s)

/-- Model of netloc.replace("www.", ""): removes every non-overlapping
occurrence of "www.", scanning left to right. -/
def stripWWW : List Char → List Char
  | 'w' :: 'w' :: 'w' :: '.' :: rest => stripWWW rest
  | c :: cs => c :: stripWWW cs
  | [] => []

/-- Model of path.rstrip("/"). -/
def rstripSlash (l : List Char) : List Char :=
  (l.reverse.dropWhile (fun c => c == '/')).reverse

/-- Embeds normalize_url from src/perplexity_checker.py: lower-case the URL,
parse it, drop "www." from the netloc, drop trailing slashes from the path,
and concatenate domain and path. -/
def normalize_url (url : String) : String :=
  String.mk (stripWWW (parseNetlocPath (lowerStr url).data).1 ++
    rstripSlash (parseNetlocPath (lowerStr url).data).2)

/- Direct-answer scorer, embedded from check_direct_answer in src/analyzer.py.
Each rubric check is embedded as one function returning its score contribution
and the reasons it appends; check_direct_answer adds the scores and
concatenates the reasons in the fixed check order, exactly as the Python code
accumulates them. -/

/-- The definitive opening words of check 2. -/
def definitiveStarts : List String :=
  ["the ", "a ", "an ", "it ", "this ", "there "]

/-- The word-boundary defining-language patterns of check 3. -/
def defining_patterns : List String :=
  ["is", "are", "means", "refers to", "defined as", "known as", "called"]

/-- The weak opening phrases of check 4. -/
def weak_starts : List String :=
  ["in this article", "in this post", "welcome to", "today we", "let\x27s",
   "click here", "subscribe"]

/-- The promotional words of check 6. -/
def promo_words : List String :=
  ["buy", "purchase", "discount", "sale", "offer", "deal", "subscribe"]

/-- Check 1: length of the first paragraph. -/
def lengthCheck (p : String) : Nat × List String :=
  if 20 ≤ count_words p ∧ count_words p ≤ 100 then
    (25, ["Good length (" ++ toString (count_words p) ++
          " words) - concise but informative"])
  else if count_words p < 20 then
    (0, ["Too short (" ++ toString (count_words p) ++ " words) - may lack detail"])
  else
    (10, ["Long first paragraph (" ++ toString (count_words p) ++
          " words) - consider being more concise"])

/-- Check 2: starts with a definitive statement, not a question. Appends no
reason when the paragraph neither ends with a question mark nor starts with a
definitive word. -/
def openingCheck (p : String) : Nat × List String :=
  if !(endsWithQmark p) then
    (if definitiveStarts.any (fun w => startsWithS (lowerStr p) w) then
      (20, ["Starts with a definitive statement"])
     else (0, []))
  else
    (0, ["First paragraph is a question, not an answer"])

/-- Check 3: contains defining language; appends a reason only when it fires. -/
def definingCheck (p : String) : Nat × List String :=
  if defining_patterns.any (fun pat => wbSearch pat (lowerStr p)) then
    (20, ["Contains defining language (is, are, means, etc.)"])
  else (0, [])

/-- Check 4: does not start with a weak phrase. -/
def weakCheck (p : String) : Nat × List String :=
  if !(weak_starts.any (fun w => startsWithS (lowerStr p) w)) then
    (15, ["Doesn\x27t start with weak/promotional phrases"])
  else
    (0, ["Starts with weak/promotional phrase - get to the answer faster"])

/-- Check 5: contains digits; appends a reason only when it fires. -/
def digitsCheck (p : String) : Nat × List String :=
  if p.data.any Char.isDigit then
    (10, ["Contains specific numbers/data"])
  else (0, [])

/-- Check 6: promotional density zero. -/
def promoCheck (p : String) : Nat × List String :=
  if promo_words.countP (fun w => subS w (lowerStr p)) = 0 then
    (10, ["Not promotional - focused on information"])
  else
    (0, ["Contains promotional language"])

/-- The running score accumulated over the six checks. -/
def totalScore (p : String) : Nat :=
  (lengthCheck p).1 + (openingCheck p).1 + (definingCheck p).1 +
    (weakCheck p).1 + (digitsCheck p).1 + (promoCheck p).1

/-- Embeds check_direct_answer: returns (is_direct_answer, min(score, 100),
reasons), short-circuiting on an empty paragraph. -/
def check_direct_answer (first_paragraph : String) : Bool × Nat × List String :=
  if first_paragraph = "" then (false, 0, ["No first paragraph found"])
  else
    (decide (50 ≤ totalScore first_paragraph),
     min (totalScore first_paragraph) 100,
     (lengthCheck first_paragraph).2 ++ (openingCheck first_paragraph).2 ++
       (definingCheck first_paragraph).2 ++ (weakCheck first_paragraph).2 ++
       (digitsCheck first_paragraph).2 ++ (promoCheck first_paragraph).2)

/- Rule-based query synthesizer, embedded from generate_queries_rule_based in
src/analyzer.py. -/

/-- The title separator characters of the regex split in the title cleanup. -/
def sepChar (c : Char) : Bool :=
  c == '|' || c == '-' || c == '–' || c == '—'

/-- Embeds the title cleanup re.split(..., title)[0].strip(): the text before
the first separator character, stripped (the whitespace the regex absorbs
around the separator is subsumed by the strip). -/
def clean_title_of (title : String) : String :=
  trimS (String.mk (title.data.takeWhile (fun c => !sepChar c)))

/-- The generic title prefixes removed from the lowered cleaned title. -/
def genericTitleStarts : List String :=
  ["how to ", "guide to ", "the complete ", "the ultimate ", "a guide to ",
   "understanding ", "learn about "]

/-- Embeds the prefix-stripping loop (first matching entry in listed order,
then break). -/
def stripGenericStart (s : String) : String :=
  match genericTitleStarts.find? (fun p => startsWithS s p) with
  | some p => String.mk (s.data.drop p.data.length)
  | none => s

/-- The title_lower variable of the synthesizer: cleaned title, lowered, with
a generic leading phrase removed. -/
def titleLowerOf (title : String) : String :=
  stripGenericStart (lowerStr (clean_title_of title))

/-- The paragraph words that route query 2 to a "How does ... work?" form. -/
def processWords : List String := ["process", "method", "step", "way", "approach"]

/-- The paragraph words that route query 3 to the importance form. -/
def importanceWords : List String :=
  ["important", "benefit", "advantage", "help", "improve"]

/-- The paragraph words that route query 3 to the comparison form. -/
def comparisonWords : List String :=
  ["best", "top", "compare", "vs", "versus", "difference"]

/-- Query 1: the "What is ...?" query, emitted only for a non-empty
title_lower. -/
def query1 (title_lower : String) : List String :=
  if title_lower ≠ "" then ["What is " ++ title_lower ++ "?"] else []

/-- Query 2: the "How" question. -/
def query2 (title first_paragraph : String) : String :=
  if subS "how to" (lowerStr title) then clean_title_of title ++ "?"
  else if first_paragraph ≠ "" then
    (if processWords.any (fun w => subS w (lowerStr first_paragraph)) then
      "How does " ++ titleLowerOf title ++ " work?"
     else
      "How to use " ++ titleLowerOf title ++ "?")
  else
    "How does " ++ titleLowerOf title ++ " work?"

/-- Query 3: the "Why" or comparison question. -/
def query3 (title first_paragraph : String) : String :=
  if first_paragraph ≠ "" then
    (if importanceWords.any (fun w => subS w (lowerStr first_paragraph)) then
      "Why is " ++ titleLowerOf title ++ " important?"
     else if comparisonWords.any (fun w => subS w (lowerStr first_paragraph)) then
      "What is the best " ++ titleLowerOf title ++ "?"
     else
      "Why use " ++ titleLowerOf title ++ "?")
  else
    "Why is " ++ titleLowerOf title ++ " important?"

/-- Embeds the final padding loop and truncation: pad with the benefits query
until there are 3 entries, then keep the first 3. -/
def padTo3 (queries : List String) (title_lower : String) : List String :=
  (queries ++ List.replicate (3 - queries.length)
      ("What are the benefits of " ++ title_lower ++ "?")).take 3

/-- Embeds generate_queries_rule_based from src/analyzer.py. -/
def generate_queries_rule_based (title first_paragraph : String) : List String :=
  if clean_title_of title = "" ∧ first_paragraph = "" then
    ["What is this topic?", "How does this work?", "Why is this important?"]
  else
    padTo3 (query1 (titleLowerOf title) ++
      [query2 title first_paragraph, query3 title first_paragraph])
      (titleLowerOf title)

/- Smart query generation and the orchestrator, embedded from
smart_generate_queries and analyze_url in src/analyzer.py. -/

/-- Result record of the external LLM query generator
(src/query_generator.py). -/
structure QueryGenerationResult where
  queries : List String
  is_ai_generated : Bool
  error : Option String

/-- The external LLM query-generation collaborator: given title, first
paragraph, leading window and credential it either raises (Except.error) or
returns a QueryGenerationResult. -/
abbrev LlmGen := String → String → String → String → Except Unit QueryGenerationResult

/-- The body of smart_generate_queries under "if openai_api_key": call the
LLM collaborator; use its result when the call does not raise, is marked
AI-generated and has at least 3 queries; otherwise fall through to the
rule-based synthesizer. -/
def smartWithKey (llm : LlmGen)
    (title first_paragraph first_500_words key : String) : List String × Bool :=
  match llm title first_paragraph first_500_words key with
  | Except.ok result =>
    if result.is_ai_generated && decide (3 ≤ result.queries.length) then
      (result.queries.take 3, true)
    else
      (generate_queries_rule_based title first_paragraph, false)
  | Except.error _ =>
    (generate_queries_rule_based title first_paragraph, false)

/-- Embeds smart_generate_queries: try the LLM when a key is present,
otherwise (or on any failure or insufficient output) use the rule-based
synthesizer with the AI flag false. -/
def smart_generate_queries (llm : LlmGen)
    (title first_paragraph first_500_words : String)
    (openai_api_key : Option String) : List String × Bool :=
  match openai_api_key with
  | some key => smartWithKey llm title first_paragraph first_500_words key
  | none => (generate_queries_rule_based title first_paragraph, false)

/-- Container for page analysis results, embedded from the AnalysisResult
dataclass (generated_queries defaults to the empty list via __post_init__). -/
structure AnalysisResult where
  url : String
  title : String
  total_word_count : Nat
  first_500_words : String
  first_paragraph : String
  has_direct_answer : Bool
  direct_answer_score : Nat
  direct_answer_reasons : List String
  extraction_success : Bool
  generated_queries : List String
  queries_ai_generated : Bool
  error_message : Option String
deriving DecidableEq

/-- Embeds the scheme normalization at the top of analyze_url. -/
def ensure_scheme (url : String) : String :=
  if startsWithS url "http://" || startsWithS url "https://" then url
  else "https://" ++ url

/-- The failure record analyze_url returns when the fetch reports an error:
all derived fields at their zero/empty defaults, the collaborator's message
passed through verbatim. -/
def failureRecord (url err : String) : AnalysisResult :=
  { url := url, title := "", total_word_count := 0, first_500_words := "",
    first_paragraph := "", has_direct_answer := false, direct_answer_score := 0,
    direct_answer_reasons := [], extraction_success := false,
    generated_queries := [], queries_ai_generated := false,
    error_message := some err }

/-- The success path of analyze_url: extract, compute metrics, score the first
paragraph (or the empty string when there is none), generate queries. -/
def analyze_content (extract : String → String × String × List String)
    (llm : LlmGen) (openai_api_key : Option String)
    (url html : String) : AnalysisResult :=
  { url := url
    title := (extract html).2.1
    total_word_count := count_words (extract html).1
    first_500_words := get_first_n_words (extract html).1 500
    first_paragraph := (extract html).2.2.headD ""
    has_direct_answer := (check_direct_answer ((extract html).2.2.headD "")).1
    direct_answer_score := (check_direct_answer ((extract html).2.2.headD "")).2.1
    direct_answer_reasons := (check_direct_answer ((extract html).2.2.headD "")).2.2
    extraction_success := true
    generated_queries := (smart_generate_queries llm (extract html).2.1
      ((extract html).2.2.headD "") (get_first_n_words (extract html).1 500)
      openai_api_key).1
    queries_ai_generated := (smart_generate_queries llm (extract html).2.1
      ((extract html).2.2.headD "") (get_first_n_words (extract html).1 500)
      openai_api_key).2
    error_message := none }

/-- Embeds analyze_url from src/analyzer.py, parametrized by its external
collaborators: the fetch collaborator (returning page body and optional error)
and the HTML extractor (returning full text, title, paragraphs). A fetch
result counts as an error exactly when the error string is truthy in Python,
i.e. present and non-empty. -/
def analyze_url (fetch : String → String × Option String)
    (extract : String → String × String × List String)
    (llm : LlmGen) (openai_api_key : Option String)
    (url0 : String) : AnalysisResult :=
  match (fetch (ensure_scheme url0)).2 with
  | some err =>
    if err = "" then
      analyze_content extract llm openai_api_key (ensure_scheme url0)
        (fetch (ensure_scheme url0)).1
    else failureRecord (ensure_scheme url0) err
  | none =>
    analyze_content extract llm openai_api_key (ensure_scheme url0)
      (fetch (ensure_scheme url0)).1

/- Concrete collaborator instances used to exercise the orchestrator
theorems on closed inputs. -/

/-- A fetch collaborator that always reports the error "boom". -/
def fetchFailW : String → String × Option String := fun _ => ("", some "boom")

/-- An extractor returning no content (never reached on the failure path). -/
def extractW : String → String × String × List String := fun _ => ("", "", [])

/-- An LLM collaborator that always raises. -/
def llmFailW : LlmGen := fun _ _ _ _ => Except.error ()

/-- An LLM collaborator that always raises, for the fallback example. -/
def llmRaiseW : LlmGen := fun _ _ _ _ => Except.error ()

/- Supporting lemmas about the character and word primitives. -/

theorem toNat_ofNat_valid (n : Nat) (h : Nat.isValidChar n) :
    (Char.ofNat n).toNat = n := by
  rw [Char.ofNat, dif_pos h]
  rfl

theorem lowerChar_idem (c : Char) : lowerChar (lowerChar c) = lowerChar c := by
  unfold lowerChar
  by_cases h : 65 ≤ c.toNat ∧ c.toNat ≤ 90
  · rw [if_pos h]
    have hv : Nat.isValidChar (c.toNat + 32) := Or.inl (by omega)
    have ht : (Char.ofNat (c.toNat + 32)).toNat = c.toNat + 32 :=
      toNat_ofNat_valid _ hv
    rw [if_neg]
    intro hc
    rw [ht] at hc
    omega
  · rw [if_neg h, if_neg h]

theorem lowerStr_idem (s : String) : lowerStr (lowerStr s) = lowerStr s := by
  apply String.ext
  show (s.data.map lowerChar).map lowerChar = s.data.map lowerChar
  rw [List.map_map]
  apply List.map_congr_left
  intro c _
  exact lowerChar_idem c

theorem wordsAux_nil (cur : List Char) :
    wordsAux cur [] = if cur.isEmpty then [] else [cur.reverse] := rfl

theorem wordsAux_cons (cur : List Char) (c : Char) (cs : List Char) :
    wordsAux cur (c :: cs) =
      if c.isWhitespace then
        (if cur.isEmpty then wordsAux [] cs else cur.reverse :: wordsAux [] cs)
      else wordsAux (c :: cur) cs := rfl

theorem wordsAux_clean : ∀ (s cur : List Char),
    (∀ c ∈ cur, c.isWhitespace = false) →
    ∀ w ∈ wordsAux cur s, w ≠ [] ∧ ∀ c ∈ w, c.isWhitespace = false := by
  intro s
  induction s with
  | nil =>
    intro cur hcur w hw
    unfold wordsAux at hw
    split at hw
    · exact absurd hw (List.not_mem_nil w)
    · next h =>
      rw [List.mem_singleton] at hw
      subst hw
      refine ⟨?_, ?_⟩
      · intro hnil
        rw [List.reverse_eq_nil_iff] at hnil
        rw [hnil] at h
        simp at h
      · intro c hc
        exact hcur c (List.mem_reverse.mp hc)
  | cons a as ih =>
    intro cur hcur w hw
    unfold wordsAux at hw
    split at hw
    · split at hw
      · exact ih [] (fun c hc => absurd hc (List.not_mem_nil c)) w hw
      · next hne =>
        rcases List.mem_cons.mp hw with hw | hw
        · subst hw
          refine ⟨?_, ?_⟩
          · intro hnil
            rw [List.reverse_eq_nil_iff] at hnil
            rw [hnil] at hne
            simp at hne
          · intro c hc
            exact hcur c (List.mem_reverse.mp hc)
        · exact ih [] (fun c hc => absurd hc (List.not_mem_nil c)) w hw
    · next hws =>
      refine ih (a :: cur) ?_ w hw
      intro c hc
      rcases List.mem_cons.mp hc with rfl | hc
      · exact Bool.not_eq_true _ ▸ (Bool.eq_false_iff.mpr hws)
      · exact hcur c hc

theorem wordsAux_append_word : ∀ (w : List Char),
    (∀ c ∈ w, c.isWhitespace = false) →
    ∀ (cur rest : List Char),
    wordsAux cur (w ++ rest) = wordsAux (w.reverse ++ cur) rest := by
  intro w
  induction w with
  | nil =>
    intro _ cur rest
    simp
  | cons a as ih =>
    intro hcl cur rest
    have ha : a.isWhitespace = false := hcl a (List.mem_cons_self a as)
    have hstep : wordsAux cur ((a :: as) ++ rest) = wordsAux (a :: cur) (as ++ rest) := by
      show wordsAux cur (a :: (as ++ rest)) = _
      rw [wordsAux_cons, ha]
      simp
    rw [hstep, ih (fun c hc => hcl c (List.mem_cons_of_mem a hc)) (a :: cur) rest]
    congr 1
    rw [List.reverse_cons, List.append_assoc]
    rfl

theorem wordsAux_space (cur rest : List Char) :
    wordsAux cur (' ' :: rest) =
      if cur.isEmpty then wordsAux [] rest else cur.reverse :: wordsAux [] rest := by
  rw [wordsAux_cons, show (' ').isWhitespace = true from rfl]
  simp

theorem joinSp_roundtrip : ∀ (ws : List (List Char)),
    (∀ w ∈ ws, w ≠ [] ∧ ∀ c ∈ w, c.isWhitespace = false) →
    wordsAux [] (joinSp ws) = ws := by
  intro ws
  induction ws with
  | nil => intro _; rfl
  | cons w ws ih =>
    intro h
    have hw := h w (List.mem_cons_self _ _)
    have hrev : w.reverse.isEmpty = false := by
      rw [List.isEmpty_eq_false_iff_exists_mem]
      rcases List.exists_mem_of_ne_nil w hw.1 with ⟨c, hc⟩
      exact ⟨c, List.mem_reverse.mpr hc⟩
    cases ws with
    | nil =>
      show wordsAux [] (joinSp [w]) = [w]
      have h1 : joinSp [w] = w ++ [] := by rw [List.append_nil]; rfl
      rw [h1, wordsAux_append_word w hw.2 [] [], List.append_nil]
      unfold wordsAux
      rw [hrev]
      simp
    | cons w2 ws2 =>
      show wordsAux [] (w ++ ' ' :: joinSp (w2 :: ws2)) = w :: w2 :: ws2
      rw [wordsAux_append_word w hw.2 [] (' ' :: joinSp (w2 :: ws2)),
        List.append_nil, wordsAux_space, hrev]
      simp only [Bool.false_eq_true, if_false, List.reverse_reverse]
      congr 1
      exact ih (fun x hx => h x (List.mem_cons_of_mem _ hx))

theorem take_min {α : Type} (l : List α) (n : Nat) :
    l.take n = l.take (min n l.length) := by
  rcases Nat.le_total n l.length with h | h
  · rw [Nat.min_eq_left h]
  · rw [Nat.min_eq_right h, List.take_of_length_le h, List.take_length]

/- Claim theorems. -/

/-- C8: for every text string and every n, get_first_n_words(text, n) is the
single-space join of the first min(n, count_words(text)) whitespace-delimited
tokens of text, and it is idempotent. -/
theorem get_first_n_words_min_and_idem (text : String) (n : Nat) :
    get_first_n_words text n =
      String.mk (joinSp ((wordsAux [] text.data).take (min n (count_words text)))) ∧
    get_first_n_words (get_first_n_words text n) n = get_first_n_words text n := by
  constructor
  · have h1 : (wordsAux [] text.data).take n
        = (wordsAux [] text.data).take (min n (count_words text)) := take_min _ n
    show String.mk (joinSp ((wordsAux [] text.data).take n)) = _
    rw [h1]
  · show String.mk (joinSp ((wordsAux []
        (String.mk (joinSp ((wordsAux [] text.data).take n))).data).take n)) = _
    have hclean : ∀ w ∈ (wordsAux [] text.data).take n,
        w ≠ [] ∧ ∀ c ∈ w, c.isWhitespace = false :=
      fun w hw => wordsAux_clean text.data []
        (fun c hc => absurd hc (List.not_mem_nil c)) w (List.take_subset n _ hw)
    have hdata : (String.mk (joinSp ((wordsAux [] text.data).take n))).data
        = joinSp ((wordsAux [] text.data).take n) := rfl
    rw [hdata, joinSp_roundtrip _ hclean, List.take_take, Nat.min_self]
    rfl

/-- C9: the two example URLs normalize to the same string. -/
theorem normalize_url_example :
    normalize_url "https://www.Example.com/Page/" = normalize_url "example.com/Page" ∧
    normalize_url "https://www.Example.com/Page/" = "example.com/page" := by
  constructor
  · rfl
  · rfl

/-- C10: normalize_url lower-cases the whole URL before parsing, so it is
invariant under pre-lowering its input; in particular path comparison during
citation matching is case-insensitive. -/
theorem normalize_url_lower_invariant (u : String) :
    normalize_url u = normalize_url (lowerStr u) := by
  unfold normalize_url
  rw [lowerStr_idem]

/-- C2: for every input string the scorer's score lies in [0,100] and its
verdict is true exactly when the clamped score is at least 50. -/
theorem check_direct_answer_range_verdict (p : String) :
    0 ≤ (check_direct_answer p).2.1 ∧ (check_direct_answer p).2.1 ≤ 100 ∧
    ((check_direct_answer p).1 = true ↔ 50 ≤ (check_direct_answer p).2.1) := by
  by_cases hp : p = ""
  · subst hp
    refine ⟨by decide, by decide, by decide⟩
  · rw [check_direct_answer, if_neg hp]
    refine ⟨Nat.zero_le _, Nat.min_le_right _ _, ?_⟩
    show (decide (50 ≤ totalScore p) = true) ↔ 50 ≤ min (totalScore p) 100
    rw [decide_eq_true_eq]
    omega

/-- C5 counterexample: the Photosynthesis paragraph is non-empty, yet the
scorer emits 4 reasons, not one per rubric check (6): the definitive-opening
check, the defining-language check and the digits check append nothing when
their condition does not fire. -/
theorem check_reasons_not_one_per_check :
    ("Photosynthesis is the process by which plants convert light into energy."
      ≠ "") ∧
    (check_direct_answer
      "Photosynthesis is the process by which plants convert light into energy."
      ).2.2.length = 4 ∧
    (check_direct_answer
      "Photosynthesis is the process by which plants convert light into energy."
      ).2.2.length ≠ 6 := by
  refine ⟨by decide, by decide, by decide⟩

theorem lengthCheck_one (p : String) : (lengthCheck p).2.length = 1 := by
  unfold lengthCheck
  split
  · rfl
  · split
    · rfl
    · rfl

theorem weakCheck_one (p : String) : (weakCheck p).2.length = 1 := by
  unfold weakCheck
  split
  · rfl
  · rfl

theorem promoCheck_one (p : String) : (promoCheck p).2.length = 1 := by
  unfold promoCheck
  split
  · rfl
  · rfl

theorem openingCheck_le_one (p : String) : (openingCheck p).2.length ≤ 1 := by
  unfold openingCheck
  split
  · split
    · exact Nat.le_refl 1
    · exact Nat.zero_le 1
  · exact Nat.le_refl 1

theorem definingCheck_le_one (p : String) : (definingCheck p).2.length ≤ 1 := by
  unfold definingCheck
  split
  · exact Nat.le_refl 1
  · exact Nat.zero_le 1

theorem digitsCheck_le_one (p : String) : (digitsCheck p).2.length ≤ 1 := by
  unfold digitsCheck
  split
  · exact Nat.le_refl 1
  · exact Nat.zero_le 1

/-- C5 (amended): for every non-empty first paragraph the reasons list is the
concatenation of the per-check reason lists in the fixed check order; the
length, weak-opening and promotional checks each contribute exactly one
reason, while the definitive-opening, defining-language and digits checks
contribute at most one (only when their condition fires), so there are
between 3 and 6 reasons. -/
theorem check_reasons_structure (p : String) (h : p ≠ "") :
    (check_direct_answer p).2.2 =
      (lengthCheck p).2 ++ (openingCheck p).2 ++ (definingCheck p).2 ++
        (weakCheck p).2 ++ (digitsCheck p).2 ++ (promoCheck p).2 ∧
    (lengthCheck p).2.length = 1 ∧ (weakCheck p).2.length = 1 ∧
    (promoCheck p).2.length = 1 ∧ (openingCheck p).2.length ≤ 1 ∧
    (definingCheck p).2.length ≤ 1 ∧ (digitsCheck p).2.length ≤ 1 ∧
    3 ≤ (check_direct_answer p).2.2.length ∧
    (check_direct_answer p).2.2.length ≤ 6 := by
  have hr : (check_direct_answer p).2.2 =
      (lengthCheck p).2 ++ (openingCheck p).2 ++ (definingCheck p).2 ++
        (weakCheck p).2 ++ (digitsCheck p).2 ++ (promoCheck p).2 := by
    rw [check_direct_answer, if_neg h]
  have hlen : (check_direct_answer p).2.2.length =
      (lengthCheck p).2.length + (openingCheck p).2.length +
        (definingCheck p).2.length + (weakCheck p).2.length +
        (digitsCheck p).2.length + (promoCheck p).2.length := by
    rw [hr, List.length_append, List.length_append, List.length_append,
      List.length_append, List.length_append]
  have h1 := lengthCheck_one p
  have h2 := openingCheck_le_one p
  have h3 := definingCheck_le_one p
  have h4 := weakCheck_one p
  have h5 := digitsCheck_le_one p
  have h6 := promoCheck_one p
  exact ⟨hr, h1, h4, h6, h2, h3, h5, by omega, by omega⟩

/-- Closed instance of the reasons-structure theorem at the Photosynthesis
paragraph, discharging its non-emptiness hypothesis there. -/
theorem check_reasons_structure_witness :
    ("Photosynthesis is the process by which plants convert light into energy."
      ≠ "") ∧
    3 ≤ (check_direct_answer
      "Photosynthesis is the process by which plants convert light into energy."
      ).2.2.length :=
  ⟨by decide,
   (check_reasons_structure
     "Photosynthesis is the process by which plants convert light into energy."
     (by decide)).2.2.2.2.2.2.2.1⟩

/-- C7: the Photosynthesis example paragraph scores exactly 45 with verdict
false: 0 from the length check (with the "Too short" reason), 0 from the
definitive-opening check, +20 defining language, +15 no weak opening, 0
digits, +10 not promotional. -/
theorem photosynthesis_example :
    check_direct_answer
      "Photosynthesis is the process by which plants convert light into energy."
      = (false, 45,
        ["Too short (11 words) - may lack detail",
         "Contains defining language (is, are, means, etc.)",
         "Doesn\x27t start with weak/promotional phrases",
         "Not promotional - focused on information"]) ∧
    subS "too short"
      (lowerStr "Too short (11 words) - may lack detail") = true ∧
    (lengthCheck
      "Photosynthesis is the process by which plants convert light into energy."
      ).1 = 0 ∧
    (openingCheck
      "Photosynthesis is the process by which plants convert light into energy."
      ).1 = 0 ∧
    (definingCheck
      "Photosynthesis is the process by which plants convert light into energy."
      ).1 = 20 ∧
    (weakCheck
      "Photosynthesis is the process by which plants convert light into energy."
      ).1 = 15 ∧
    (digitsCheck
      "Photosynthesis is the process by which plants convert light into energy."
      ).1 = 0 ∧
    (promoCheck
      "Photosynthesis is the process by which plants convert light into energy."
      ).1 = 10 := by
  refine ⟨by decide, by decide, by decide, by decide, by decide, by decide,
    by decide, by decide⟩

theorem lit_append_append_ne (s t u : String) (h : s.data ≠ []) :
    s ++ t ++ u ≠ "" := by
  intro he
  rw [String.ext_iff, String.data_append, String.data_append] at he
  rcases List.append_eq_nil.mp he with ⟨h1, _⟩
  rcases List.append_eq_nil.mp h1 with ⟨h2, _⟩
  exact h h2

theorem append_lit_ne (s t : String) (h : t.data ≠ []) : s ++ t ≠ "" := by
  intro he
  rw [String.ext_iff, String.data_append] at he
  exact h (List.append_eq_nil.mp he).2

theorem query2_ne (title first_paragraph : String) :
    query2 title first_paragraph ≠ "" := by
  unfold query2
  split
  · exact append_lit_ne _ _ (by decide)
  · split
    · split
      · exact lit_append_append_ne _ _ _ (by decide)
      · exact lit_append_append_ne _ _ _ (by decide)
    · exact lit_append_append_ne _ _ _ (by decide)

theorem query3_ne (title first_paragraph : String) :
    query3 title first_paragraph ≠ "" := by
  unfold query3
  split
  · split
    · exact lit_append_append_ne _ _ _ (by decide)
    · split
      · exact lit_append_append_ne _ _ _ (by decide)
      · exact lit_append_append_ne _ _ _ (by decide)
  · exact lit_append_append_ne _ _ _ (by decide)

theorem padTo3_length (l : List String) (x : String) :
    (padTo3 l x).length = 3 := by
  unfold padTo3
  rw [List.length_take, List.length_append, List.length_replicate]
  omega

theorem padTo3_mem (l : List String) (x : String) :
    ∀ q ∈ padTo3 l x, q ∈ l ∨ q = "What are the benefits of " ++ x ++ "?" := by
  intro q hq
  unfold padTo3 at hq
  have h1 := List.take_subset 3 _ hq
  rcases List.mem_append.mp h1 with h2 | h2
  · exact Or.inl h2
  · exact Or.inr (List.eq_of_mem_replicate h2)

/-- C3: the rule-based synthesizer always returns exactly 3 non-empty
queries, and exactly the fixed default set when both inputs are empty. -/
theorem generate_queries_rule_based_spec (title first_paragraph : String) :
    (generate_queries_rule_based title first_paragraph).length = 3 ∧
    (∀ q ∈ generate_queries_rule_based title first_paragraph, q ≠ "") ∧
    (title = "" → first_paragraph = "" →
      generate_queries_rule_based title first_paragraph =
        ["What is this topic?", "How does this work?", "Why is this important?"]) := by
  refine ⟨?_, ?_, ?_⟩
  · rw [generate_queries_rule_based]
    split
    · rfl
    · exact padTo3_length _ _
  · intro q hq
    rw [generate_queries_rule_based] at hq
    split at hq
    · fin_cases hq <;> decide
    · rcases padTo3_mem _ _ q hq with hmem | rfl
      · rcases List.mem_append.mp hmem with h1 | h2
        · rw [query1] at h1
          split at h1
          · rw [List.mem_singleton] at h1
            subst h1
            exact lit_append_append_ne _ _ _ (by decide)
          · exact absurd h1 (List.not_mem_nil q)
        · rcases List.mem_cons.mp h2 with rfl | h3
          · exact query2_ne _ _
          · rw [List.mem_singleton] at h3
            subst h3
            exact query3_ne _ _
      · exact lit_append_append_ne _ _ _ (by decide)
  · intro h1 h2
    subst h1
    subst h2
    decide

/-- Closed instance of the synthesizer theorem with both inputs empty,
discharging the two emptiness hypotheses of its default-set clause. -/
theorem generate_queries_rule_based_spec_witness :
    generate_queries_rule_based "" "" =
      ["What is this topic?", "How does this work?", "Why is this important?"] :=
  (generate_queries_rule_based_spec "" "").2.2 rfl rfl

/-- C6 counterexample: on the example title and paragraph, query 2 keeps the
cleaned title's original casing, so it is not the lower-cased
"how to train a dog?" the claim states. -/
theorem rule_based_example_query2_not_lower :
    (generate_queries_rule_based "How to Train a Dog | PetSite"
      "Training a dog takes patience and consistent methods.")[1]? ≠
      some "how to train a dog?" := by decide

/-- C6 (amended): queries 1 and 3 are as the claim states; query 2 is the
cleaned title with its original casing plus a question mark,
"How to Train a Dog?". -/
theorem rule_based_example_queries :
    generate_queries_rule_based "How to Train a Dog | PetSite"
      "Training a dog takes patience and consistent methods." =
      ["What is train a dog?", "How to Train a Dog?", "Why use train a dog?"] := by
  decide

/-- C1: when the fetch collaborator reports an error (a present, non-empty
error string), analyze_url returns the failure record: every derived field at
its zero/empty default, extraction_success false, and the collaborator's
message passed through verbatim. -/
theorem analyze_url_fetch_failure
    (fetch : String → String × Option String)
    (extract : String → String × String × List String)
    (llm : LlmGen) (openai_api_key : Option String)
    (url e : String)
    (h : (fetch (ensure_scheme url)).2 = some e) (he : e ≠ "") :
    analyze_url fetch extract llm openai_api_key url =
      { url := ensure_scheme url, title := "", total_word_count := 0,
        first_500_words := "", first_paragraph := "", has_direct_answer := false,
        direct_answer_score := 0, direct_answer_reasons := [],
        extraction_success := false, generated_queries := [],
        queries_ai_generated := false, error_message := some e } := by
  unfold analyze_url
  rw [h]
  show (if e = "" then
      analyze_content extract llm openai_api_key (ensure_scheme url)
        (fetch (ensure_scheme url)).1
    else failureRecord (ensure_scheme url) e) = _
  rw [if_neg he]
  rfl

/-- Closed instance of the fetch-failure theorem: a collaborator reporting
"boom" yields the fully-defaulted failure record. -/
theorem analyze_url_fetch_failure_witness :
    (fetchFailW (ensure_scheme "https://example.com")).2 = some "boom" ∧
    ("boom" : String) ≠ "" ∧
    analyze_url fetchFailW extractW llmFailW none "https://example.com" =
      { url := ensure_scheme "https://example.com", title := "",
        total_word_count := 0, first_500_words := "", first_paragraph := "",
        has_direct_answer := false, direct_answer_score := 0,
        direct_answer_reasons := [], extraction_success := false,
        generated_queries := [], queries_ai_generated := false,
        error_message := some "boom" } :=
  ⟨rfl, by decide,
   analyze_url_fetch_failure fetchFailW extractW llmFailW none
     "https://example.com" "boom" rfl (by decide)⟩

/-- C4: with a key present, if the LLM collaborator raises or returns fewer
than 3 queries, smart_generate_queries returns exactly the rule-based
synthesizer's output with the AI flag false (and no error in the result). -/
theorem smart_generate_queries_fallback (llm : LlmGen)
    (title first_paragraph first_500_words key : String)
    (h : llm title first_paragraph first_500_words key = Except.error () ∨
      ∃ r, llm title first_paragraph first_500_words key = Except.ok r ∧
        r.queries.length < 3) :
    smart_generate_queries llm title first_paragraph first_500_words (some key) =
      (generate_queries_rule_based title first_paragraph, false) := by
  show smartWithKey llm title first_paragraph first_500_words key = _
  unfold smartWithKey
  rcases h with h | ⟨r, hr, hlen⟩
  · rw [h]
  · rw [hr]
    have hc : (r.is_ai_generated && decide (3 ≤ r.queries.length)) = false := by
      have h2 : decide (3 ≤ r.queries.length) = false := decide_eq_false (by omega)
      rw [h2, Bool.and_false]
    show (if r.is_ai_generated && decide (3 ≤ r.queries.length) then
        (r.queries.take 3, true)
      else (generate_queries_rule_based title first_paragraph, false)) = _
    rw [hc]
    rfl

/-- Closed instance of the fallback theorem: a collaborator that raises makes
smart query generation return the rule-based queries with the AI flag
false. -/
theorem smart_generate_queries_fallback_witness :
    smart_generate_queries llmRaiseW "Title" "Para" "Window" (some "key") =
      (generate_queries_rule_based "Title" "Para", false) :=
  smart_generate_queries_fallback llmRaiseW "Title" "Para" "Window" "key"
    (Or.inl rfl)

end AEO
